import Mathlib

set_option maxHeartbeats 1000000

/-!
Verification development for the Lirconian repository, a Python client for
the lircd line-oriented request/reply protocol. The definitions below are a
shallow embedding of the reply-framing state machine of reply_parser.py, the
command session of lirc_client.py, and the older self-contained loop of
LircClient.py, together with small models of the Python string and integer
primitives those files rely on.
-/

namespace Lirconian

/-! ## Python string and integer primitives -/

/-- Whitespace characters recognised by the Python str.strip method,
restricted to the ASCII range, which is all the transport can deliver since
lines are decoded as US-ASCII: tab through carriage return, the separator
control characters 28 to 31, and the space. -/
def pyWS (c : Char) : Bool :=
  c.toNat = 32 || (9 ≤ c.toNat && c.toNat ≤ 13) || (28 ≤ c.toNat && c.toNat ≤ 31)

/-- Model of Python str.strip on a list of characters: drop whitespace from
both ends. -/
def pyStripL (cs : List Char) : List Char :=
  ((cs.dropWhile (fun c => pyWS c)).reverse.dropWhile (fun c => pyWS c)).reverse

/-- Model of Python str.strip. -/
def pyStrip (s : String) : String := String.mk (pyStripL s.toList)

/-- Model of Python str.lower, adequate for the ASCII input delivered by the
transport. -/
def pyLower (s : String) : String := String.mk (s.toList.map Char.toLower)

/-- ASCII decimal digit test. -/
def isAsciiDigit (c : Char) : Bool := 48 ≤ c.toNat && c.toNat ≤ 57

/-- Tail of a digit group in Python int syntax: digits, with single
underscores allowed between digits. -/
def digitsTail : List Char → Bool
  | [] => true
  | c :: rest =>
    if isAsciiDigit c then digitsTail rest
    else if c = '_' then
      match rest with
      | [] => false
      | d :: rest2 => isAsciiDigit d && digitsTail rest2
    else false

/-- Valid digit group for Python int: nonempty, begins with a digit, single
underscores allowed between digits. -/
def validDigits (cs : List Char) : Bool :=
  match cs with
  | [] => false
  | c :: rest => isAsciiDigit c && digitsTail rest

/-- Numeric value of a list of ASCII digits read left to right. -/
def digitsVal (cs : List Char) : Nat :=
  cs.foldl (fun a c => 10 * a + (c.toNat - 48)) 0

/-- Value of a digit group, ignoring grouping underscores. -/
def natOfDigits (cs : List Char) : Nat := digitsVal (cs.filter (fun c => c ≠ '_'))

/-- Model of the Python builtin int applied to a base-10 string: surrounding
whitespace is tolerated, then an optional sign followed by a digit group.
The result none models a raised ValueError. Note that a leading minus sign
is accepted: int parses negative numbers. -/
def pyIntOfString (s : String) : Option Int :=
  match (pyStrip s).toList with
  | [] => none
  | c :: rest =>
    if c = '-' then (if validDigits rest then some (-(natOfDigits rest : Int)) else none)
    else if c = '+' then (if validDigits rest then some ((natOfDigits rest : Int)) else none)
    else if validDigits (c :: rest) then some ((natOfDigits (c :: rest) : Int)) else none

/-- ASCII digit character for a value below ten. -/
def digitChar (d : Nat) : Char := Char.ofNat (48 + d)

/-- Fuel-driven decimal digit expansion of a natural number, most significant
digit first. -/
def decDigitsGo : Nat → Nat → List Char
  | 0, _ => []
  | f + 1, n => if n < 10 then [digitChar n] else decDigitsGo f (n / 10) ++ [digitChar (n % 10)]

/-- Decimal rendering of a natural number, as the Python builtin str produces
for a nonnegative int. -/
def natToDec (n : Nat) : String := String.mk (decDigitsGo (n + 1) n)

/-! ## Reply State Machine: reply_parser.py -/

/-- Public parser result, class Result of reply_parser.py. -/
inductive Result
  | OK
  | FAIL
  | INCOMPLETE
deriving DecidableEq

/-- Internal FSM states, class ReplyParser._State of reply_parser.py. -/
inductive PState
  | BEGIN
  | COMMAND
  | RESULT
  | DATA
  | LINE_COUNT
  | LINES
  | END
  | DONE
  | NO_DATA
  | SIGHUP_END
deriving DecidableEq

/-- Exceptions the parsing code can raise: BadPacketException carrying the
offending line and the state, plus the Python-level TypeError and KeyError
that unintended paths raise. -/
inductive PError
  | badPacket (line : String) (state : PState)
  | typeError
  | keyError
deriving DecidableEq

/-- State of one ReplyParser instance of reply_parser.py. The byte buffer
initialised in __init__ is omitted: no method ever reads it. -/
structure ReplyParser where
  result : Result
  success : Option Bool
  data : List String
  last_line : String
  sighup : Bool
  state : PState
  lines_expected : Option Int
deriving DecidableEq

/-- Fresh parser as built by ReplyParser.__init__. -/
def initParser : ReplyParser :=
  { result := .INCOMPLETE, success := none, data := [], last_line := "", sighup := false,
    state := .BEGIN, lines_expected := none }

/-- Accessor is_completed: true when no more reply input is required. -/
def ReplyParser.is_completed (p : ReplyParser) : Bool := p.result != Result.INCOMPLETE

/-- Epilogue of feed: once the FSM has reached DONE the public result becomes
OK. -/
def finish (p : ReplyParser) : ReplyParser :=
  if p.state = PState.DONE then { p with result := Result.OK } else p

/-- Dispatch of one stripped, nonempty line to the state handler, mirroring
the fsm dictionary of ReplyParser.feed and the handlers _begin through
_sighup_end. The DONE and NO_DATA states have no entry in the dictionary, so
dispatching there raises KeyError. In the LINES handler the line is appended
before the count comparison, and comparing against a missing count would be
a Python TypeError. -/
def feedGo (p : ReplyParser) (l : String) : ReplyParser × Option PError :=
  if p.state = PState.BEGIN then
    (if l = "BEGIN" then { p with state := PState.COMMAND } else p, none)
  else if p.state = PState.COMMAND then
    ({ p with state := PState.RESULT }, none)
  else if p.state = PState.RESULT then
    if l = "SUCCESS" then ({ p with success := some true, state := PState.DATA }, none)
    else if l = "ERROR" then ({ p with success := some false, state := PState.DATA }, none)
    else if l = "SIGHUP" then ({ p with state := PState.SIGHUP_END, sighup := true }, none)
    else (p, some (.badPacket l p.state))
  else if p.state = PState.DATA then
    if l = "END" then ({ p with state := PState.DONE }, none)
    else if l = "DATA" then ({ p with state := PState.LINE_COUNT }, none)
    else (p, some (.badPacket l p.state))
  else if p.state = PState.LINE_COUNT then
    match pyIntOfString l with
    | none => (p, some (.badPacket l p.state))
    | some n =>
      if n = 0 then ({ p with lines_expected := some n, state := PState.END }, none)
      else ({ p with lines_expected := some n, state := PState.LINES }, none)
  else if p.state = PState.LINES then
    match p.lines_expected with
    | none => ({ p with data := p.data ++ [l] }, some PError.typeError)
    | some e =>
      if ((p.data.length + 1 : Int) ≥ e) then
        ({ p with data := p.data ++ [l], state := PState.END }, none)
      else ({ p with data := p.data ++ [l] }, none)
  else if p.state = PState.END then
    if l = "END" then ({ p with state := PState.DONE }, none)
    else (p, some (.badPacket l p.state))
  else if p.state = PState.SIGHUP_END then
    if l = "END" then ({ p with state := PState.BEGIN }, none)
    else (p, some (.badPacket l p.state))
  else (p, some PError.keyError)

/-- Model of ReplyParser.feed: strip the line, ignore it when empty, record
it in last_line, dispatch on the state, and finally set result to OK when
the state has reached DONE. A raised exception skips the epilogue. -/
def feed (p : ReplyParser) (line : String) : ReplyParser × Option PError :=
  if pyStrip line = "" then (p, none)
  else
    match feedGo { p with last_line := pyStrip line } (pyStrip line) with
    | (q, none) => (finish q, none)
    | (q, some e) => (q, some e)

/-- Feeds a list of lines in order, stopping at the first raised exception. -/
def runFeeds (p : ReplyParser) : List String → ReplyParser × Option PError
  | [] => (p, none)
  | l :: ls =>
    match feed p l with
    | (q, none) => runFeeds q ls
    | (q, some e) => (q, some e)

/-! ## Command Session: lirc_client.py -/

/-- Errors surfaced by AbstractLircClient._send_command: a parser exception,
the blocking read when the transport has no more lines to give, or the
LircServerException raised on a falsy success. -/
inductive SCError
  | drive (e : PError)
  | outOfInput
  | lircServer (msg : String)
deriving DecidableEq

/-- State of an AbstractLircClient of lirc_client.py: the single parser
created in __init__ together with the remote and command remembered for
stop_ir. -/
structure Session where
  verbose : Bool
  parser : ReplyParser
  last_command : Option String
  last_remote : Option String
deriving DecidableEq

/-- Session as initialised by AbstractLircClient.__init__. -/
def initSession (verbose : Bool) : Session :=
  { verbose := verbose, parser := initParser, last_command := none, last_remote := none }

/-- Reply loop of _send_command: while the parser is not completed, read one
line and feed it. The input list models the lines the transport will
deliver; the returned list is what the loop left unread. -/
def driveParser : ReplyParser → List String → ReplyParser × List String × Option SCError
  | p, [] => if p.is_completed then (p, [], none) else (p, [], some SCError.outOfInput)
  | p, l :: rest =>
    if p.is_completed then (p, l :: rest, none)
    else
      match feed p l with
      | (q, none) => driveParser q rest
      | (q, some e) => (q, rest, some (SCError.drive e))

/-- Python truthiness of the parser success attribute: None and False are
both falsy. -/
def truthySuccess : Option Bool → Bool
  | some true => true
  | _ => false

/-- Model of AbstractLircClient._send_command: write the packet line, drive
the session parser over the incoming lines until it reports completion, then
either return the parser data or raise LircServerException when success is
falsy. Returns the outcome, the updated session, and the lines left unread
on the transport. -/
def send_command (s : Session) (_packet : String) (input : List String) :
    Except SCError (List String) × Session × List String :=
  let out := driveParser s.parser input
  match out.2.2 with
  | some e => (Except.error e, { s with parser := out.1 }, out.2.1)
  | none =>
    if truthySuccess out.1.success then
      (Except.ok out.1.data, { s with parser := out.1 }, out.2.1)
    else
      (Except.error (SCError.lircServer (String.join out.1.data)), { s with parser := out.1 },
        out.2.1)

/-- Python expression x if x else y over optional strings, where both None
and the empty string are falsy. -/
def pyOr : Option String → Option String → Option String
  | some s, y => if s = "" then y else some s
  | none, y => y

/-- Packet string built by AbstractLircClient.stop_ir before any transport
write; none models the TypeError raised when a missing value makes the
string concatenation add None to a string. -/
def stop_ir_packet (s : Session) (remote command : Option String) : Option String :=
  match pyOr remote s.last_remote, pyOr command s.last_command with
  | some r, some c => some ("SEND_STOP " ++ r ++ " " ++ c)
  | _, _ => none

/-- Lines that stop_ir writes to the transport: the packet plus a newline
when the packet could be built, nothing when the TypeError fired first. -/
def stop_ir_writes (s : Session) (remote command : Option String) : List String :=
  match stop_ir_packet s remote command with
  | some pk => [pk ++ "\n"]
  | none => []

/-- Transmitter mask computed by AbstractLircClient.set_transmitters: bit
(i - 1) is set for each requested 1-based index i. -/
def transmittersMask (ts : List Nat) : Nat :=
  ts.foldl (fun mask t => mask ||| (1 <<< (t - 1))) 0

/-- Packet issued by set_transmitters_mask of lirc_client.py. -/
def set_transmitters_mask_packet (mask : Nat) : String :=
  "SET_TRANSMITTERS " ++ natToDec mask

/-- Packet issued by set_transmitters of lirc_client.py, which delegates to
set_transmitters_mask. -/
def set_transmitters_packet (ts : List Nat) : String :=
  set_transmitters_mask_packet (transmittersMask ts)

/-- Line reader of lirc_client.py _read_line, driven by explicit fuel: while
the buffer holds no newline byte, append the next chunk the socket recv call
returns; once a newline is present, split at the first newline and keep the
remainder buffered. The chunk list models the data the transport will still
deliver; when it is exhausted, recv returns the empty chunk forever, which
is how a closed connection behaves. A none result means the loop has not
produced a line within the given fuel. -/
def readLineFuel : Nat → List Char → List (List Char) → Option (String × List Char × List (List Char))
  | 0, _, _ => none
  | fuel + 1, buf, chunks =>
    if '\n' ∈ buf then
      some (String.mk (buf.takeWhile (fun c => c ≠ '\n')),
        ((buf.dropWhile (fun c => c ≠ '\n')).tail, chunks))
    else
      match chunks with
      | [] => readLineFuel fuel buf []
      | c :: rest => readLineFuel fuel (buf ++ c) rest

/-! ## Older self-contained client: LircClient.py -/

/-- Parser state constants of LircClient.py AbstractLircClient. -/
inductive LCP
  | P_BEGIN
  | P_MESSAGE
  | P_STATUS
  | P_DATA
  | P_N
  | P_DATA_N
  | P_END
  | P_DONE
deriving DecidableEq

/-- Local loop state of LircClient.py send_command. -/
structure LCSession where
  state : LCP
  result : List String
  success : Bool
  lines_receives : Nat
  lines_expected : Int
deriving DecidableEq

/-- Exceptions of the LircClient.py loop body and of its set_transmitters. -/
inductive LCError
  | badPacket
  | valueError
  | typeError
  | recursionStop
  | cannotHappen
deriving DecidableEq

/-- Echo check of the P_MESSAGE state of LircClient.py send_command: the
received line, stripped and lowercased, must equal the lowercased packet
just sent, else the machine falls back to P_BEGIN. -/
def lcEchoNext (packet string : String) : LCP :=
  if pyLower (pyStrip string) = pyLower packet then LCP.P_STATUS else LCP.P_BEGIN

/-- One iteration of the while loop of LircClient.py send_command for one
received line, mirroring the elif chain over the state constants. Only the
P_MESSAGE branch strips and lowercases the line, comparing it with the
lowercased packet just sent. -/
def lcStep (packet : String) (s : LCSession) (string : String) : LCSession × Option LCError :=
  if s.state = LCP.P_BEGIN then
    (if string = "BEGIN" then { s with state := LCP.P_MESSAGE } else s, none)
  else if s.state = LCP.P_MESSAGE then
    ({ s with state := lcEchoNext packet string }, none)
  else if s.state = LCP.P_STATUS then
    if string = "SUCCESS" then ({ s with state := LCP.P_DATA }, none)
    else if string = "END" then ({ s with state := LCP.P_DONE }, none)
    else if string = "ERROR" then ({ s with state := LCP.P_DATA, success := false }, none)
    else (s, some LCError.badPacket)
  else if s.state = LCP.P_DATA then
    if string = "END" then ({ s with state := LCP.P_DONE }, none)
    else if string = "DATA" then ({ s with state := LCP.P_N }, none)
    else (s, some LCError.badPacket)
  else if s.state = LCP.P_N then
    match pyIntOfString string with
    | none => (s, some LCError.valueError)
    | some n =>
      ({ s with lines_expected := n, state := if n = 0 then LCP.P_END else LCP.P_DATA_N }, none)
  else if s.state = LCP.P_DATA_N then
    let s := { s with result := s.result ++ [string], lines_receives := s.lines_receives + 1 }
    (if ((s.lines_receives : Int) = s.lines_expected) then { s with state := LCP.P_END } else s,
      none)
  else if s.state = LCP.P_END then
    if string = "END" then ({ s with state := LCP.P_DONE }, none)
    else (s, some LCError.badPacket)
  else (s, some LCError.cannotHappen)

/-- Python value passed to LircClient.py set_transmitters: a list of indices
on the public path, or the integer mask on the recursive self call the
source makes. -/
inductive PyV
  | listV (ts : List Nat)
  | intV (n : Nat)

/-- Model of LircClient.py set_transmitters with explicit fuel standing for
the Python recursion limit: the list branch folds the indices into a mask
and then calls set_transmitters itself with that integer, as the source does
instead of calling set_transmitters_mask; iterating over an integer raises
TypeError at once. -/
def lcSetTransmittersGo : Nat → PyV → Except LCError String
  | 0, _ => Except.error LCError.recursionStop
  | _ + 1, PyV.intV _ => Except.error LCError.typeError
  | f + 1, PyV.listV ts => lcSetTransmittersGo f (PyV.intV (transmittersMask ts))

/-- Entry point of the LircClient.py set_transmitters model. -/
def lcSetTransmitters (arg : PyV) : Except LCError String :=
  lcSetTransmittersGo 1000 arg

/-! ## Wire grammar of section 6 -/

/-- One well-formed server reply of the wire grammar: the echoed command,
the SUCCESS or ERROR flag, and an optional DATA section. -/
structure WireReply where
  cmd : String
  ok : Bool
  payload : Option (List String)

/-- Optional DATA section of a wire reply: the marker, the decimal count and
exactly count payload lines. -/
def dataSection : Option (List String) → List String
  | none => []
  | some ls => ["DATA", natToDec ls.length] ++ ls

/-- Lines of a wire reply: BEGIN, the echo, the flag, the optional DATA
section, then END. -/
def replyLines (r : WireReply) : List String :=
  ["BEGIN", r.cmd, if r.ok then "SUCCESS" else "ERROR"] ++ dataSection r.payload ++ ["END"]

/-- Line fit for a line-oriented protocol: stripping is the identity and the
line is nonempty. Lines arriving from the wire have had their terminator
removed by the line reader. -/
def cleanLine (l : String) : Prop := pyStrip l = l ∧ l ≠ ""

/-- Well-formedness side conditions for a wire reply: the echoed command and
every payload line are nonempty lines free of surrounding whitespace. -/
def wellFormedReply (r : WireReply) : Prop :=
  cleanLine r.cmd ∧ ∀ l ∈ r.payload.getD [], cleanLine l

instance : DecidablePred cleanLine := fun l =>
  decidable_of_iff (pyStrip l = l ∧ l ≠ "") Iff.rfl

instance : DecidablePred wellFormedReply := fun r =>
  decidable_of_iff (cleanLine r.cmd ∧ ∀ l ∈ r.payload.getD [], cleanLine l) Iff.rfl

/-! ## Concrete scenario states -/

/-- First server reply of the back-to-back command scenario. -/
def replyA : List String := ["BEGIN", "LIST", "SUCCESS", "DATA", "1", "alpha", "END"]

/-- Second server reply of the back-to-back command scenario. -/
def replyB : List String := ["BEGIN", "LIST", "SUCCESS", "DATA", "1", "beta", "END"]

/-- Session state after the first command of the scenario has completed. -/
def sessionAfterFirst : Session :=
  (send_command (initSession false) "LIST" (replyA ++ replyB)).2.1

/-- Parser stopped in the LINE_COUNT state, reached by a genuine prefix of a
reply. -/
def parserAtCount : ReplyParser :=
  (runFeeds initParser ["BEGIN", "LIST", "SUCCESS", "DATA"]).1

/-- Parser that has completed a SUCCESS reply without data. -/
def parserDone : ReplyParser :=
  (runFeeds initParser ["BEGIN", "LIST", "SUCCESS", "END"]).1

/-- Parser waiting for the command echo. -/
def parserAtEcho : ReplyParser :=
  (runFeeds initParser ["BEGIN"]).1

/-- LircClient.py loop state waiting for the command echo. -/
def lcAtMessage : LCSession :=
  { state := LCP.P_MESSAGE, result := [], success := true, lines_receives := 0,
    lines_expected := -1 }

/-! ## Lemmas about the string and integer primitives -/

lemma digit_not_ws {c : Char} (h : isAsciiDigit c = true) : pyWS c = false := by
  simp only [isAsciiDigit, Bool.and_eq_true, decide_eq_true_eq] at h
  simp only [pyWS, Bool.or_eq_false_iff, Bool.and_eq_false_iff, decide_eq_false_iff_not]
  omega

lemma digit_ne_minus {c : Char} (h : isAsciiDigit c = true) : c ≠ '-' := by
  intro hc
  subst hc
  exact absurd h (by decide)

lemma digit_ne_plus {c : Char} (h : isAsciiDigit c = true) : c ≠ '+' := by
  intro hc
  subst hc
  exact absurd h (by decide)

lemma digit_ne_underscore {c : Char} (h : isAsciiDigit c = true) : c ≠ '_' := by
  intro hc
  subst hc
  exact absurd h (by decide)

lemma dropWhile_eq_self_of_all {p : Char → Bool} :
    ∀ (cs : List Char), (∀ c ∈ cs, p c = false) → cs.dropWhile p = cs
  | [], _ => rfl
  | c :: l, h => by simp [List.dropWhile_cons, h c (by simp)]

lemma pyStripL_of_no_ws {cs : List Char} (h : ∀ c ∈ cs, pyWS c = false) : pyStripL cs = cs := by
  unfold pyStripL
  rw [dropWhile_eq_self_of_all cs h,
    dropWhile_eq_self_of_all cs.reverse (fun c hc => h c (List.mem_reverse.mp hc)),
    List.reverse_reverse]

lemma digitChar_toNat {d : Nat} (h : d < 10) : (digitChar d).toNat = 48 + d := by
  interval_cases d <;> decide

lemma digitChar_digit {d : Nat} (h : d < 10) : isAsciiDigit (digitChar d) = true := by
  simp only [isAsciiDigit, digitChar_toNat h, Bool.and_eq_true, decide_eq_true_eq]
  omega

lemma decDigitsGo_digits : ∀ (f n : Nat), n < f → ∀ c ∈ decDigitsGo f n, isAsciiDigit c = true := by
  intro f
  induction f with
  | zero => intro n h; omega
  | succ f ih =>
    intro n hn c hc
    by_cases h10 : n < 10
    · simp only [decDigitsGo, if_pos h10, List.mem_singleton] at hc
      subst hc
      exact digitChar_digit h10
    · have hdiv : n / 10 < f :=
        lt_of_lt_of_le (Nat.div_lt_self (by omega) (by norm_num)) (Nat.lt_succ_iff.mp hn)
      simp only [decDigitsGo, if_neg h10, List.mem_append, List.mem_singleton] at hc
      rcases hc with hc | hc
      · exact ih (n / 10) hdiv c hc
      · subst hc
        exact digitChar_digit (Nat.mod_lt _ (by norm_num))

lemma decDigitsGo_ne_nil : ∀ (f n : Nat), n < f → decDigitsGo f n ≠ [] := by
  intro f n h
  cases f with
  | zero => omega
  | succ f =>
    by_cases h10 : n < 10
    · simp [decDigitsGo, h10]
    · simp [decDigitsGo, h10]

lemma decDigitsGo_val : ∀ (f n : Nat), n < f → digitsVal (decDigitsGo f n) = n := by
  intro f
  induction f with
  | zero => intro n h; omega
  | succ f ih =>
    intro n hn
    by_cases h10 : n < 10
    · simp only [decDigitsGo, if_pos h10, digitsVal, List.foldl_cons, List.foldl_nil]
      rw [digitChar_toNat h10]
      omega
    · have hdiv : n / 10 < f :=
        lt_of_lt_of_le (Nat.div_lt_self (by omega) (by norm_num)) (Nat.lt_succ_iff.mp hn)
      simp only [decDigitsGo, if_neg h10, digitsVal, List.foldl_append, List.foldl_cons,
        List.foldl_nil]
      have hv := ih (n / 10) hdiv
      simp only [digitsVal] at hv
      rw [hv, digitChar_toNat (Nat.mod_lt _ (by norm_num))]
      omega

lemma digitsTail_of_digits : ∀ (cs : List Char), (∀ c ∈ cs, isAsciiDigit c = true) →
    digitsTail cs = true
  | [], _ => rfl
  | c :: l, h => by
    have hc := h c (by simp)
    unfold digitsTail
    rw [hc]
    simp only [if_true]
    exact digitsTail_of_digits l (fun d hd => h d (by simp [hd]))

lemma validDigits_of_digits {cs : List Char} (hne : cs ≠ [])
    (h : ∀ c ∈ cs, isAsciiDigit c = true) : validDigits cs = true := by
  cases cs with
  | nil => exact absurd rfl hne
  | cons c l =>
    simp only [validDigits, Bool.and_eq_true]
    exact ⟨h c (by simp), digitsTail_of_digits l (fun d hd => h d (by simp [hd]))⟩

lemma filter_no_underscore {cs : List Char} (h : ∀ c ∈ cs, isAsciiDigit c = true) :
    cs.filter (fun c => c ≠ '_') = cs := by
  apply List.filter_eq_self.mpr
  intro c hc
  simpa using digit_ne_underscore (h c hc)

lemma pyStrip_natToDec (n : Nat) : pyStrip (natToDec n) = natToDec n := by
  have hd := decDigitsGo_digits (n + 1) n (Nat.lt_succ_self n)
  show String.mk (pyStripL (decDigitsGo (n + 1) n)) = String.mk (decDigitsGo (n + 1) n)
  rw [pyStripL_of_no_ws (fun c hc => digit_not_ws (hd c hc))]

lemma natToDec_ne_empty (n : Nat) : natToDec n ≠ "" := by
  have hne := decDigitsGo_ne_nil (n + 1) n (Nat.lt_succ_self n)
  intro h
  exact hne (by simpa using congrArg String.data h)

lemma cleanLine_natToDec (n : Nat) : cleanLine (natToDec n) :=
  ⟨pyStrip_natToDec n, natToDec_ne_empty n⟩

lemma pyInt_cons (c : Char) (l : List Char) (s : String) (h : (pyStrip s).toList = c :: l) :
    pyIntOfString s =
      if c = '-' then (if validDigits l then some (-(natOfDigits l : Int)) else none)
      else if c = '+' then (if validDigits l then some ((natOfDigits l : Int)) else none)
      else if validDigits (c :: l) then some ((natOfDigits (c :: l) : Int)) else none := by
  unfold pyIntOfString
  rw [h]

lemma pyIntOfString_natToDec (n : Nat) : pyIntOfString (natToDec n) = some (n : Int) := by
  have hd := decDigitsGo_digits (n + 1) n (Nat.lt_succ_self n)
  have hne := decDigitsGo_ne_nil (n + 1) n (Nat.lt_succ_self n)
  have hv := decDigitsGo_val (n + 1) n (Nat.lt_succ_self n)
  obtain ⟨c, l, hds⟩ : ∃ c l, decDigitsGo (n + 1) n = c :: l := by
    cases hcase : decDigitsGo (n + 1) n with
    | nil => exact absurd hcase hne
    | cons c l => exact ⟨c, l, rfl⟩
  have hc : isAsciiDigit c = true := hd c (by rw [hds]; simp)
  have hall : ∀ d ∈ (c :: l), isAsciiDigit d = true := by rw [← hds]; exact hd
  rw [pyInt_cons c l (natToDec n) (by rw [pyStrip_natToDec]; exact hds)]
  rw [if_neg (digit_ne_minus hc), if_neg (digit_ne_plus hc),
    if_pos (validDigits_of_digits (by simp) hall)]
  have hval : natOfDigits (c :: l) = n := by
    unfold natOfDigits
    rw [filter_no_underscore hall, ← hds]
    exact hv
  rw [hval]

/-! ## Step lemmas about the reply parser -/

lemma runFeeds_nil (p : ReplyParser) : runFeeds p [] = (p, none) := rfl

lemma runFeeds_cons_ok {p q : ReplyParser} {l : String} (ls : List String)
    (h : feed p l = (q, none)) : runFeeds p (l :: ls) = runFeeds q ls := by
  simp only [runFeeds, h]

lemma runFeeds_append_ok {p q : ReplyParser} {xs : List String} (ys : List String)
    (h : runFeeds p xs = (q, none)) : runFeeds p (xs ++ ys) = runFeeds q ys := by
  induction xs generalizing p with
  | nil =>
    simp only [runFeeds] at h
    injection h with h1 _
    subst h1
    rfl
  | cons x xs ih =>
    simp only [runFeeds] at h ⊢
    cases hf : feed p x with
    | mk p1 err =>
      rw [hf] at h
      cases err with
      | none =>
        simp only at h ⊢
        exact ih h
      | some e =>
        exact absurd (congrArg Prod.snd h) (by simp)

lemma feed_begin_tok {p : ReplyParser} (h : p.state = PState.BEGIN) :
    feed p "BEGIN" = ({ p with last_line := "BEGIN", state := PState.COMMAND }, none) := by
  have h2 : feedGo { p with last_line := "BEGIN" } "BEGIN" =
      ({ p with last_line := "BEGIN", state := PState.COMMAND }, none) := by
    unfold feedGo
    simp [h]
  unfold feed
  rw [show pyStrip "BEGIN" = "BEGIN" from rfl, if_neg (by decide : ¬("BEGIN" : String) = ""), h2]
  simp [finish]

lemma feed_command_any {p : ReplyParser} {l : String} (h : p.state = PState.COMMAND)
    (hl : pyStrip l ≠ "") :
    feed p l = ({ p with last_line := pyStrip l, state := PState.RESULT }, none) := by
  have h2 : feedGo { p with last_line := pyStrip l } (pyStrip l) =
      ({ p with last_line := pyStrip l, state := PState.RESULT }, none) := by
    unfold feedGo
    simp [h]
  unfold feed
  rw [if_neg hl, h2]
  simp [finish]

lemma feed_success_tok {p : ReplyParser} (h : p.state = PState.RESULT) :
    feed p "SUCCESS" =
      ({ p with last_line := "SUCCESS", success := some true, state := PState.DATA }, none) := by
  have h2 : feedGo { p with last_line := "SUCCESS" } "SUCCESS" =
      ({ p with last_line := "SUCCESS", success := some true, state := PState.DATA }, none) := by
    unfold feedGo
    simp [h]
  unfold feed
  rw [show pyStrip "SUCCESS" = "SUCCESS" from rfl,
    if_neg (by decide : ¬("SUCCESS" : String) = ""), h2]
  simp [finish]

lemma feed_error_tok {p : ReplyParser} (h : p.state = PState.RESULT) :
    feed p "ERROR" =
      ({ p with last_line := "ERROR", success := some false, state := PState.DATA }, none) := by
  have h2 : feedGo { p with last_line := "ERROR" } "ERROR" =
      ({ p with last_line := "ERROR", success := some false, state := PState.DATA }, none) := by
    unfold feedGo
    simp [h]
  unfold feed
  rw [show pyStrip "ERROR" = "ERROR" from rfl,
    if_neg (by decide : ¬("ERROR" : String) = ""), h2]
  simp [finish]

lemma feed_flag {p : ReplyParser} (b : Bool) (h : p.state = PState.RESULT) :
    feed p (if b then "SUCCESS" else "ERROR") =
      ({ p with last_line := if b then "SUCCESS" else "ERROR", success := some b,
                state := PState.DATA }, none) := by
  cases b with
  | true => exact feed_success_tok h
  | false => exact feed_error_tok h

lemma feed_data_end {p : ReplyParser} (h : p.state = PState.DATA) :
    feed p "END" =
      ({ p with last_line := "END", state := PState.DONE, result := Result.OK }, none) := by
  have h2 : feedGo { p with last_line := "END" } "END" =
      ({ p with last_line := "END", state := PState.DONE }, none) := by
    unfold feedGo
    simp [h]
  unfold feed
  rw [show pyStrip "END" = "END" from rfl, if_neg (by decide : ¬("END" : String) = ""), h2]
  simp [finish]

lemma feed_data_data {p : ReplyParser} (h : p.state = PState.DATA) :
    feed p "DATA" = ({ p with last_line := "DATA", state := PState.LINE_COUNT }, none) := by
  have h2 : feedGo { p with last_line := "DATA" } "DATA" =
      ({ p with last_line := "DATA", state := PState.LINE_COUNT }, none) := by
    unfold feedGo
    simp [h]
  unfold feed
  rw [show pyStrip "DATA" = "DATA" from rfl, if_neg (by decide : ¬("DATA" : String) = ""), h2]
  simp [finish]

lemma feed_count_zero {p : ReplyParser} (h : p.state = PState.LINE_COUNT) :
    feed p (natToDec 0) =
      ({ p with last_line := natToDec 0, lines_expected := some 0, state := PState.END },
        none) := by
  have h2 : feedGo { p with last_line := natToDec 0 } (natToDec 0) =
      ({ p with last_line := natToDec 0, lines_expected := some 0, state := PState.END },
        none) := by
    unfold feedGo
    rw [pyIntOfString_natToDec 0]
    simp [h]
  unfold feed
  rw [pyStrip_natToDec 0, if_neg (natToDec_ne_empty 0), h2]
  simp [finish]

lemma feed_count_pos {p : ReplyParser} (m : Nat) (hm : 0 < m) (h : p.state = PState.LINE_COUNT) :
    feed p (natToDec m) =
      ({ p with last_line := natToDec m, lines_expected := some (m : Int),
                state := PState.LINES }, none) := by
  have hm0 : ¬((m : Int) = 0) := by omega
  have h2 : feedGo { p with last_line := natToDec m } (natToDec m) =
      ({ p with last_line := natToDec m, lines_expected := some (m : Int),
                state := PState.LINES }, none) := by
    unfold feedGo
    rw [pyIntOfString_natToDec m]
    simp [h, hm0]
  unfold feed
  rw [pyStrip_natToDec m, if_neg (natToDec_ne_empty m), h2]
  simp [finish]

lemma feed_end_end {p : ReplyParser} (h : p.state = PState.END) :
    feed p "END" =
      ({ p with last_line := "END", state := PState.DONE, result := Result.OK }, none) := by
  have h2 : feedGo { p with last_line := "END" } "END" =
      ({ p with last_line := "END", state := PState.DONE }, none) := by
    unfold feedGo
    simp [h]
  unfold feed
  rw [show pyStrip "END" = "END" from rfl, if_neg (by decide : ¬("END" : String) = ""), h2]
  simp [finish]

lemma feed_lines_last {p : ReplyParser} {l : String} {e : Int} (hst : p.state = PState.LINES)
    (hexp : p.lines_expected = some e) (hc : cleanLine l)
    (hge : (p.data.length + 1 : Int) ≥ e) :
    feed p l =
      ({ p with last_line := l, data := p.data ++ [l], state := PState.END }, none) := by
  have h2 : feedGo { p with last_line := l } l =
      ({ p with last_line := l, data := p.data ++ [l], state := PState.END }, none) := by
    unfold feedGo
    simp [hst, hexp, hge]
  unfold feed
  rw [hc.1, if_neg hc.2, h2]
  simp [finish]

lemma feed_lines_more {p : ReplyParser} {l : String} {e : Int} (hst : p.state = PState.LINES)
    (hexp : p.lines_expected = some e) (hc : cleanLine l)
    (hlt : ¬((p.data.length + 1 : Int) ≥ e)) :
    feed p l = ({ p with last_line := l, data := p.data ++ [l] }, none) := by
  have h2 : feedGo { p with last_line := l } l =
      ({ p with last_line := l, data := p.data ++ [l] }, none) := by
    unfold feedGo
    simp [hst, hexp, hlt]
  unfold feed
  rw [hc.1, if_neg hc.2, h2]
  simp [finish, hst]

lemma run_lines_phase : ∀ (payload : List String) (p : ReplyParser) (e : Int),
    p.state = PState.LINES → p.lines_expected = some e →
    (p.data.length : Int) + payload.length = e → payload ≠ [] →
    (∀ l ∈ payload, cleanLine l) →
    ∃ q, runFeeds p payload = (q, none) ∧ q.state = PState.END ∧
      q.data = p.data ++ payload ∧ q.success = p.success := by
  intro payload
  induction payload with
  | nil => intro p e _ _ _ hne _; exact absurd rfl hne
  | cons l rest ih =>
    intro p e hst hexp hlen _ hcl
    have hcl0 : cleanLine l := hcl l (by simp)
    cases rest with
    | nil =>
      have hge : ((p.data.length + 1 : Int) ≥ e) := by
        simp only [List.length_cons, List.length_nil] at hlen
        omega
      have hf := feed_lines_last hst hexp hcl0 hge
      refine ⟨{ p with last_line := l, data := p.data ++ [l], state := PState.END }, ?_, rfl,
        by simp, rfl⟩
      rw [runFeeds_cons_ok [] hf, runFeeds_nil]
    | cons l2 rest2 =>
      have hlt : ¬((p.data.length + 1 : Int) ≥ e) := by
        simp only [List.length_cons] at hlen
        push_cast at hlen
        omega
      have hf := feed_lines_more hst hexp hcl0 hlt
      obtain ⟨q, hrun, hqs, hqd, hqsu⟩ :=
        ih { p with last_line := l, data := p.data ++ [l] } e hst hexp
          (by simp only [List.length_cons] at hlen ⊢
              push_cast at hlen ⊢
              simp
              omega)
          (by simp) (fun x hx => hcl x (by simp [hx]))
      refine ⟨q, ?_, hqs, ?_, hqsu.trans rfl⟩
      · rw [runFeeds_cons_ok (l2 :: rest2) hf]
        exact hrun
      · rw [hqd]
        simp

lemma feedGo_fst_result (p : ReplyParser) (l : String) : (feedGo p l).1.result = p.result := by
  unfold feedGo
  repeat' split
  all_goals rfl

lemma feed_result_or (p : ReplyParser) (l : String) :
    (feed p l).1.result = p.result ∨ (feed p l).1.result = Result.OK := by
  unfold feed
  by_cases hl : pyStrip l = ""
  · rw [if_pos hl]
    exact Or.inl rfl
  · rw [if_neg hl]
    cases hfg : feedGo { p with last_line := pyStrip l } (pyStrip l) with
    | mk q err =>
      have hres : q.result = p.result := by
        have hh := feedGo_fst_result { p with last_line := pyStrip l } (pyStrip l)
        rw [hfg] at hh
        exact hh
      cases err with
      | none =>
        show (finish q).result = p.result ∨ (finish q).result = Result.OK
        unfold finish
        by_cases hq : q.state = PState.DONE
        · rw [if_pos hq]
          exact Or.inr rfl
        · rw [if_neg hq]
          exact Or.inl hres
      | some e => exact Or.inl hres

lemma runFeeds_result_not_fail : ∀ (ls : List String) (p : ReplyParser),
    (p.result = Result.INCOMPLETE ∨ p.result = Result.OK) →
    ((runFeeds p ls).1.result = Result.INCOMPLETE ∨ (runFeeds p ls).1.result = Result.OK) := by
  intro ls
  induction ls with
  | nil => intro p h; exact h
  | cons l rest ih =>
    intro p h
    have hstep := feed_result_or p l
    cases hf : feed p l with
    | mk q err =>
      rw [hf] at hstep
      have hq : q.result = Result.INCOMPLETE ∨ q.result = Result.OK := by
        rcases hstep with hs | hs
        · rw [hs]; exact h
        · exact Or.inr hs
      cases err with
      | none =>
        simp only [runFeeds, hf]
        exact ih q hq
      | some e =>
        simp only [runFeeds, hf]
        exact hq

/-! ## Claims -/

/-- C1: for every well-formed reply line sequence matching the wire grammar
of section 6 (BEGIN, the echoed command line, SUCCESS or ERROR, optionally
DATA followed by the count and exactly count payload lines, then END),
feeding the lines one at a time into a fresh Reply State Machine completes
the parse with no exception, is_completed true, success equal to the encoded
flag, and data equal to the ordered sequence of payload lines; in particular
a reply with a DATA section of count zero yields empty data and no error. -/
theorem c1_wellformed_reply_parses (r : WireReply) (h : wellFormedReply r) :
    (runFeeds initParser (replyLines r)).2 = none ∧
    (runFeeds initParser (replyLines r)).1.is_completed = true ∧
    (runFeeds initParser (replyLines r)).1.success = some r.ok ∧
    (runFeeds initParser (replyLines r)).1.data = r.payload.getD [] := by
  obtain ⟨cmd, ok, payload⟩ := r
  obtain ⟨hcmd, hpay⟩ := h
  have hl2 : pyStrip cmd ≠ "" := by rw [hcmd.1]; exact hcmd.2
  have hf1 : feed initParser "BEGIN" =
      ((⟨Result.INCOMPLETE, none, [], "BEGIN", false, PState.COMMAND, none⟩ : ReplyParser),
        none) := rfl
  have hf2 : feed (⟨Result.INCOMPLETE, none, [], "BEGIN", false, PState.COMMAND, none⟩ :
      ReplyParser) cmd =
      ((⟨Result.INCOMPLETE, none, [], cmd, false, PState.RESULT, none⟩ : ReplyParser), none) := by
    rw [@feed_command_any
      (⟨Result.INCOMPLETE, none, [], "BEGIN", false, PState.COMMAND, none⟩ : ReplyParser)
      cmd rfl hl2, hcmd.1]
  have hf3 : feed (⟨Result.INCOMPLETE, none, [], cmd, false, PState.RESULT, none⟩ : ReplyParser)
      (if ok then "SUCCESS" else "ERROR") =
      ((⟨Result.INCOMPLETE, some ok, [], if ok then "SUCCESS" else "ERROR", false, PState.DATA,
        none⟩ : ReplyParser), none) := by
    rw [@feed_flag (⟨Result.INCOMPLETE, none, [], cmd, false, PState.RESULT, none⟩ : ReplyParser)
      ok rfl]
  cases payload with
  | none =>
    simp only [replyLines, dataSection, List.cons_append, List.nil_append, Option.getD_none]
    rw [runFeeds_cons_ok _ hf1, runFeeds_cons_ok _ hf2, runFeeds_cons_ok _ hf3]
    have hf4 : feed (⟨Result.INCOMPLETE, some ok, [], if ok then "SUCCESS" else "ERROR", false,
        PState.DATA, none⟩ : ReplyParser) "END" =
        ((⟨Result.OK, some ok, [], "END", false, PState.DONE, none⟩ : ReplyParser), none) := by
      rw [@feed_data_end (⟨Result.INCOMPLETE, some ok, [],
        if ok then "SUCCESS" else "ERROR", false, PState.DATA, none⟩ : ReplyParser) rfl]
    rw [runFeeds_cons_ok _ hf4, runFeeds_nil]
    exact ⟨rfl, rfl, rfl, rfl⟩
  | some ls =>
    simp only [replyLines, dataSection, List.cons_append, List.nil_append, Option.getD_some]
    rw [runFeeds_cons_ok _ hf1, runFeeds_cons_ok _ hf2, runFeeds_cons_ok _ hf3]
    have hf4 : feed (⟨Result.INCOMPLETE, some ok, [], if ok then "SUCCESS" else "ERROR", false,
        PState.DATA, none⟩ : ReplyParser) "DATA" =
        ((⟨Result.INCOMPLETE, some ok, [], "DATA", false, PState.LINE_COUNT, none⟩ : ReplyParser),
          none) := by
      rw [@feed_data_data (⟨Result.INCOMPLETE, some ok, [],
        if ok then "SUCCESS" else "ERROR", false, PState.DATA, none⟩ : ReplyParser) rfl]
    rw [runFeeds_cons_ok _ hf4]
    cases ls with
    | nil =>
      simp only [List.length_nil, List.nil_append]
      have hf5 : feed (⟨Result.INCOMPLETE, some ok, [], "DATA", false, PState.LINE_COUNT, none⟩ :
          ReplyParser) (natToDec 0) =
          ((⟨Result.INCOMPLETE, some ok, [], natToDec 0, false, PState.END, some 0⟩ :
            ReplyParser), none) := by
        rw [@feed_count_zero (⟨Result.INCOMPLETE, some ok, [], "DATA", false, PState.LINE_COUNT,
          none⟩ : ReplyParser) rfl]
      rw [runFeeds_cons_ok _ hf5]
      have hf6 : feed (⟨Result.INCOMPLETE, some ok, [], natToDec 0, false, PState.END, some 0⟩ :
          ReplyParser) "END" =
          ((⟨Result.OK, some ok, [], "END", false, PState.DONE, some 0⟩ : ReplyParser), none) := by
        rw [@feed_end_end (⟨Result.INCOMPLETE, some ok, [], natToDec 0, false, PState.END,
          some 0⟩ : ReplyParser) rfl]
      rw [runFeeds_cons_ok _ hf6, runFeeds_nil]
      exact ⟨rfl, rfl, rfl, rfl⟩
    | cons l0 ls0 =>
      simp only [List.length_cons]
      have hm : 0 < ls0.length + 1 := Nat.succ_pos _
      have hf5 : feed (⟨Result.INCOMPLETE, some ok, [], "DATA", false, PState.LINE_COUNT, none⟩ :
          ReplyParser) (natToDec (ls0.length + 1)) =
          ((⟨Result.INCOMPLETE, some ok, [], natToDec (ls0.length + 1), false, PState.LINES,
            some ((ls0.length + 1 : Nat) : Int)⟩ : ReplyParser), none) := by
        rw [@feed_count_pos (⟨Result.INCOMPLETE, some ok, [], "DATA", false, PState.LINE_COUNT,
          none⟩ : ReplyParser) (ls0.length + 1) hm rfl]
      rw [runFeeds_cons_ok _ hf5]
      simp only [Option.getD_some] at hpay
      obtain ⟨q, hrun, hqs, hqd, hqsu⟩ :=
        run_lines_phase (l0 :: ls0)
          (⟨Result.INCOMPLETE, some ok, [], natToDec (ls0.length + 1), false, PState.LINES,
            some ((ls0.length + 1 : Nat) : Int)⟩ : ReplyParser)
          ((ls0.length + 1 : Nat) : Int) rfl rfl (by simp) (by simp) hpay
      rw [runFeeds_append_ok ["END"] hrun]
      rw [runFeeds_cons_ok _ (feed_end_end hqs), runFeeds_nil]
      refine ⟨rfl, rfl, ?_, ?_⟩
      · show q.success = some ok
        rw [hqsu]
      · show q.data = l0 :: ls0
        rw [hqd]
        simp

/-- Witness for C1 at the reply BEGIN, LIST, SUCCESS, DATA, 0, END: the
well-formedness hypothesis holds and the parse completes with empty data. -/
theorem c1_wellformed_reply_parses_witness :
    wellFormedReply ⟨"LIST", true, some []⟩ ∧
    ((runFeeds initParser (replyLines ⟨"LIST", true, some []⟩)).2 = none ∧
      (runFeeds initParser (replyLines ⟨"LIST", true, some []⟩)).1.is_completed = true ∧
      (runFeeds initParser (replyLines ⟨"LIST", true, some []⟩)).1.success = some true ∧
      (runFeeds initParser (replyLines ⟨"LIST", true, some []⟩)).1.data = []) :=
  ⟨by decide, c1_wellformed_reply_parses ⟨"LIST", true, some []⟩ (by decide)⟩

/-- C2: the code keeps one ReplyParser for the whole session instead of a
fresh one per request, so a second _send_command on the same session finds
the parser already completed, consumes no line from the transport, and
returns the data of the first reply again: with the second reply carrying
the line beta still unread, the second call returns alpha. -/
theorem c2_second_command_returns_stale_data :
    (send_command (initSession false) "LIST" (replyA ++ replyB)).1 =
      Except.ok ["alpha"] ∧
    (send_command sessionAfterFirst "LIST" replyB).1 = Except.ok ["alpha"] ∧
    (send_command sessionAfterFirst "LIST" replyB).2.2 = replyB ∧
    (["alpha"] : List String) ≠ ["beta"] :=
  ⟨rfl, rfl, rfl, by decide⟩

/-- C3: a complete SIGHUP notification frame BEGIN, SIGHUP, END fed to a
fresh Reply State Machine is not absorbed: the SIGHUP line is consumed as
the command echo, the END line then raises BadPacketException in the RESULT
state, and the sighup flag never becomes true. -/
theorem c3_sighup_frame_raises :
    (runFeeds initParser ["BEGIN", "SIGHUP", "END"]).2 =
      some (PError.badPacket "END" PState.RESULT) ∧
    (runFeeds initParser ["BEGIN", "SIGHUP", "END"]).1.sighup = false :=
  ⟨rfl, rfl⟩

/-- Counterexample for C4: in the state after BEGIN, the ReplyParser of
reply_parser.py advances to RESULT on a line that does not equal the command
just sent (here the command LIST versus the noise line XYZZY), instead of
resetting to BEGIN as the claim states. -/
theorem c4_counterexample :
    pyLower (pyStrip "XYZZY") ≠ pyLower "LIST" ∧
    (feed parserAtEcho "XYZZY").2 = none ∧
    (feed parserAtEcho "XYZZY").1.state = PState.RESULT ∧
    PState.RESULT ≠ PState.BEGIN := by decide

/-- C4 amended: only the older LircClient.py loop compares the echoed line,
stripped and lowercased, against the packet just sent and falls back to
P_BEGIN on a mismatch; the ReplyParser of reply_parser.py advances from the
COMMAND state to RESULT on every nonempty line without any comparison. -/
theorem c4_echo_behaviour :
    (∀ (packet : String) (s : LCSession) (string : String), s.state = LCP.P_MESSAGE →
      lcStep packet s string = ({ s with state := lcEchoNext packet string }, none)) ∧
    (∀ (p : ReplyParser) (l : String), p.state = PState.COMMAND → pyStrip l ≠ "" →
      (feed p l).2 = none ∧ (feed p l).1.state = PState.RESULT) := by
  constructor
  · intro packet s string h
    unfold lcStep
    simp [h]
  · intro p l h hl
    rw [feed_command_any h hl]
    exact ⟨rfl, rfl⟩

/-- Witness for C4 at concrete inputs: the LircClient.py machine in
P_MESSAGE steps on the noise line, and the ReplyParser in COMMAND accepts
the same noise line and moves to RESULT. -/
theorem c4_echo_behaviour_witness :
    (lcStep "LIST" lcAtMessage "NOISE" =
      ({ lcAtMessage with state := lcEchoNext "LIST" "NOISE" }, none)) ∧
    ((feed parserAtEcho "NOISE").2 = none ∧
      (feed parserAtEcho "NOISE").1.state = PState.RESULT) :=
  ⟨c4_echo_behaviour.1 "LIST" lcAtMessage "NOISE" rfl,
    c4_echo_behaviour.2 parserAtEcho "NOISE" (by decide) (by decide)⟩

/-- C5: when the connection is closed before a newline is buffered, the recv
call of the transport returns zero bytes forever; the while loop of
_read_line then never terminates, for any amount of fuel, instead of raising
a transport error. -/
theorem c5_closed_connection_never_returns :
    ∀ (fuel : Nat) (buf : List Char), '\n' ∉ buf → readLineFuel fuel buf [] = none := by
  intro fuel
  induction fuel with
  | zero => intro buf _; rfl
  | succ f ih =>
    intro buf h
    unfold readLineFuel
    rw [if_neg h]
    exact ih buf h

/-- Witness for C5 at a concrete newline-free buffer. -/
theorem c5_closed_connection_never_returns_witness :
    ('\n' ∉ (['H', 'I'] : List Char)) ∧ readLineFuel 9 ['H', 'I'] [] = none :=
  ⟨by decide, c5_closed_connection_never_returns 9 ['H', 'I'] (by decide)⟩

/-- Counterexample for C6: the line -1 is not a nonnegative integer, yet
feeding it to the parser in the LINE_COUNT state raises nothing and advances
the state to LINES, because the Python int builtin parses negative
numbers. -/
theorem c6_counterexample :
    parserAtCount.state = PState.LINE_COUNT ∧
    (feed parserAtCount "-1").2 = none ∧
    (feed parserAtCount "-1").1.state = PState.LINES := by decide

/-- C6 amended: in the LINE_COUNT state a line that the Python int builtin
cannot parse at all raises BadPacketException naming the line and the state,
and the state and expected count are left unchanged; a negative integer line
such as -1, however, is accepted without error and advances the state to
LINES with the negative expected count stored. -/
theorem c6_count_line (p : ReplyParser) (l : String) (hst : p.state = PState.LINE_COUNT)
    (hne : pyStrip l ≠ "") (hbad : pyIntOfString (pyStrip l) = none) :
    (feed p l = ({ p with last_line := pyStrip l },
        some (PError.badPacket (pyStrip l) PState.LINE_COUNT)) ∧
      (feed p l).1.state = PState.LINE_COUNT ∧
      (feed p l).1.lines_expected = p.lines_expected) ∧
    ((feed p "-1").2 = none ∧ (feed p "-1").1.state = PState.LINES ∧
      (feed p "-1").1.lines_expected = some (-1)) := by
  have h2 : feedGo { p with last_line := pyStrip l } (pyStrip l) =
      ({ p with last_line := pyStrip l },
        some (PError.badPacket (pyStrip l) PState.LINE_COUNT)) := by
    unfold feedGo
    simp [hst, hbad]
  have hfeed : feed p l = ({ p with last_line := pyStrip l },
      some (PError.badPacket (pyStrip l) PState.LINE_COUNT)) := by
    unfold feed
    rw [if_neg hne, h2]
  have hne0 : ¬((-1 : Int) = 0) := by decide
  have h2b : feedGo { p with last_line := "-1" } "-1" =
      ({ p with last_line := "-1", lines_expected := some (-1), state := PState.LINES },
        none) := by
    unfold feedGo
    simp [hst, show pyIntOfString "-1" = some (-1) from rfl, hne0]
  have hfeedb : feed p "-1" =
      ({ p with last_line := "-1", lines_expected := some (-1), state := PState.LINES },
        none) := by
    unfold feed
    rw [show pyStrip "-1" = "-1" from rfl, if_neg (by decide : ¬("-1" : String) = ""), h2b]
    simp [finish]
  refine ⟨⟨hfeed, ?_, ?_⟩, ?_⟩
  · rw [hfeed]
    exact hst
  · rw [hfeed]
  · rw [hfeedb]
    exact ⟨rfl, rfl, rfl⟩

/-- Witness for C6 at the parser stopped in LINE_COUNT and the unparseable
line x y. -/
theorem c6_count_line_witness :
    (parserAtCount.state = PState.LINE_COUNT ∧ pyStrip "x y" ≠ "" ∧
      pyIntOfString (pyStrip "x y") = none) ∧
    ((feed parserAtCount "x y" = ({ parserAtCount with last_line := pyStrip "x y" },
        some (PError.badPacket (pyStrip "x y") PState.LINE_COUNT)) ∧
      (feed parserAtCount "x y").1.state = PState.LINE_COUNT ∧
      (feed parserAtCount "x y").1.lines_expected = parserAtCount.lines_expected) ∧
    ((feed parserAtCount "-1").2 = none ∧ (feed parserAtCount "-1").1.state = PState.LINES ∧
      (feed parserAtCount "-1").1.lines_expected = some (-1))) :=
  ⟨⟨by decide, by decide, by decide⟩,
    c6_count_line parserAtCount "x y" (by decide) (by decide) (by decide)⟩

/-- C7: once the parser has reached DONE, feeding any further line leaves
the completed result untouched: success, data, result and is_completed are
all unchanged (an empty line is ignored; a nonempty one raises KeyError from
the state dictionary before any of those fields could change). -/
theorem c7_done_consumes_nothing (p : ReplyParser) (l : String) (h : p.state = PState.DONE) :
    (feed p l).1.success = p.success ∧ (feed p l).1.data = p.data ∧
    (feed p l).1.result = p.result ∧ (feed p l).1.is_completed = p.is_completed := by
  by_cases hl : pyStrip l = ""
  · unfold feed
    rw [if_pos hl]
    exact ⟨rfl, rfl, rfl, rfl⟩
  · have h2 : feedGo { p with last_line := pyStrip l } (pyStrip l) =
        ({ p with last_line := pyStrip l }, some PError.keyError) := by
      unfold feedGo
      simp [h]
    unfold feed
    rw [if_neg hl, h2]
    exact ⟨rfl, rfl, rfl, rfl⟩

/-- Witness for C7 at a parser that has completed a SUCCESS reply. -/
theorem c7_done_consumes_nothing_witness :
    parserDone.state = PState.DONE ∧
    ((feed parserDone "BEGIN").1.success = parserDone.success ∧
      (feed parserDone "BEGIN").1.data = parserDone.data ∧
      (feed parserDone "BEGIN").1.result = parserDone.result ∧
      (feed parserDone "BEGIN").1.is_completed = parserDone.is_completed) :=
  ⟨by decide, c7_done_consumes_nothing parserDone "BEGIN" (by decide)⟩

/-- C8: set_transmitters of lirc_client.py folds the 1-based indices 1 and 3
into the mask 5 and issues SET_TRANSMITTERS 5; the same call on the
LircClient.py variant instead recurses into set_transmitters with the
integer mask and dies with TypeError before sending anything, because the
source calls set_transmitters instead of set_transmitters_mask. -/
theorem c8_set_transmitters :
    set_transmitters_packet [1, 3] = "SET_TRANSMITTERS 5" ∧
    lcSetTransmitters (PyV.listV [1, 3]) = Except.error LCError.typeError :=
  ⟨rfl, rfl⟩

/-- C9: on a fresh session, stop_ir with no explicit remote and command and
no previous send_ir_command_repeat fails while building the packet (the
concatenation of a string with the missing None values raises TypeError)
and writes nothing to the transport. -/
theorem c9_stop_without_start :
    stop_ir_packet (initSession false) none none = none ∧
    stop_ir_writes (initSession false) none none = [] :=
  ⟨rfl, rfl⟩

/-- C10: the public result field of the parser never becomes FAIL along any
line sequence fed from a fresh parser: it is INCOMPLETE until completion and
OK afterwards, even for a reply whose status line is ERROR, where the server
failure is visible only through success being false. -/
theorem c10_result_never_fail :
    (∀ ls : List String, (runFeeds initParser ls).1.result ≠ Result.FAIL) ∧
    ((runFeeds initParser ["BEGIN", "LIST", "ERROR", "END"]).1.result = Result.OK ∧
      (runFeeds initParser ["BEGIN", "LIST", "ERROR", "END"]).1.success = some false ∧
      (runFeeds initParser ["BEGIN", "LIST", "ERROR", "END"]).1.is_completed = true) := by
  refine ⟨?_, rfl, rfl, rfl⟩
  intro ls hfail
  rcases runFeeds_result_not_fail ls initParser (Or.inl rfl) with hr | hr <;>
    rw [hfail] at hr <;> simp at hr

end Lirconian
